import Mathlib

/-!
Shallow embedding of `src/backend/database/crud.py` (the data-access layer of
the Knowledge_Tracing_RecommandationSystem repository).

The relational store is modelled as an explicit `DB` record holding the rows
of each table as a list; every CRUD function becomes a Lean function that
takes the `DB` (and, where the Python code reads the wall clock via
`datetime.utcnow()`, an explicit `now : Nat`) and returns the new `DB`
together with its result.  Python exceptions (`raise ValueError`) become
`Except String`; `None` becomes `Option`.  `datetime` values are modelled as
`Nat` timestamps, Python floats as `ℚ`.  SQLAlchemy's `.first()` is
`List.find?`, `.filter(...).all()` is `List.filter`, `.offset(n).limit(m)` is
`.drop n |>.take m`, `ORDER BY` is a stable sort (`List.insertionSort`) on the
ordering column, and `COUNT`/`MAX` aggregates are `List.length`/`List.max?`
over the filtered rows.
-/

/-- Row of the `students` table (`models.Student`). -/
structure Student where
  id : Nat
  first_name : String
  last_name : String
  class_id : Nat
  is_deleted : Bool
  deleted_at : Option Nat
  last_interaction_update_timestamp : Nat
deriving DecidableEq, Repr

/-- Row of the `classes` table (`models.Class`). -/
structure ClassRow where
  id : Nat
  name : String
  description : String
  created_at : Nat
  teacher_id : Nat
deriving DecidableEq, Repr

/-- Row of the `skills` table (`models.Skill`). -/
structure Skill where
  id : Nat
  internal_idx : Nat
  original_skill_id : String
  name : String
deriving DecidableEq, Repr

/-- Row of the `problems` table (`models.Problem`). -/
structure Problem where
  id : Nat
  internal_idx : Nat
  original_problem_id : String
  description_placeholder : String
  skill_id : Nat
  difficulty_mu_q : ℚ
deriving DecidableEq, Repr

/-- Row of the `interactions` table (`models.Interaction`). -/
structure Interaction where
  id : Nat
  student_id : Nat
  problem_id : Nat
  skill_id : Nat
  is_correct : Bool
  timestamp : Nat
deriving DecidableEq, Repr

/-- The relational store: one list of rows per table touched by `crud.py`. -/
structure DB where
  classes : List ClassRow
  students : List Student
  skills : List Skill
  problems : List Problem
  interactions : List Interaction
deriving DecidableEq, Repr

/-- Mutating the first row of a list that satisfies `p` (SQLAlchemy loads the
single object returned by `.first()` and mutates it in place). -/
def updateFirst (p : α → Bool) (f : α → α) : List α → List α
  | [] => []
  | x :: xs => if p x then f x :: xs else x :: updateFirst p f xs

/-- Embeds `get_class`: `db.query(Class).filter(Class.id == class_id).first()`. -/
def get_class (db : DB) (class_id : Nat) : Option ClassRow :=
  db.classes.find? (fun c => c.id == class_id)

/-- Embeds `get_student`: first student row with the given id. -/
def get_student (db : DB) (student_id : Nat) : Option Student :=
  db.students.find? (fun s => s.id == student_id)

/-- Embeds `get_skill_by_original_id`. -/
def get_skill_by_original_id (db : DB) (original_skill_id : String) : Option Skill :=
  db.skills.find? (fun s => s.original_skill_id == original_skill_id)

/-- Embeds `get_problem`: first problem row with the given id. -/
def get_problem (db : DB) (problem_id : Nat) : Option Problem :=
  db.problems.find? (fun p => p.id == problem_id)

/-- Embeds `get_problem_by_original_id`. -/
def get_problem_by_original_id (db : DB) (original_problem_id : String) : Option Problem :=
  db.problems.find? (fun p => p.original_problem_id == original_problem_id)

/-- Count of active (non-soft-deleted) students of a class, the
`db.query(Student).filter(class_id == ..., is_deleted == False).count()`
query inside `delete_class` (and the per-class count of
`get_classes_for_dashboard`). -/
def activeStudentCount (db : DB) (class_id : Nat) : Nat :=
  (db.students.filter (fun s => s.class_id == class_id && !s.is_deleted)).length

/-- Embeds `delete_class` (crud.py lines 66-89).  Absent class: `(db, ok none)`.
With `n > 0` active students: raises `ValueError` carrying the German message
with the count interpolated, and the session is left untouched.  Otherwise the
class's soft-deleted students are hard-deleted, then the class row itself. -/
def delete_class (db : DB) (class_id : Nat) : DB × Except String (Option ClassRow) :=
  match get_class db class_id with
  | none => (db, .ok none)
  | some c =>
    let n := activeStudentCount db class_id
    if n > 0 then
      (db, .error ("Klasse kann nicht gelöscht werden. Bitte erst die " ++
        toString n ++ " Schüler löschen."))
    else
      ({ db with
          students := db.students.filter
            (fun s => !(s.class_id == class_id && s.is_deleted)),
          classes := db.classes.filter (fun k => !(k.id == class_id)) },
       .ok (some c))

/-- Embeds `get_students_by_class`: students of the class with
`is_deleted == False` (the `hasattr` guard in the source is always true since
the model has the column), then `offset(skip).limit(limit)`. -/
def get_students_by_class (db : DB) (class_id skip limit : Nat) : List Student :=
  ((db.students.filter (fun s => s.class_id == class_id && !s.is_deleted)).drop
    skip).take limit

/-- Leading-segment test on character lists (helper for the `ILIKE`
containment model). -/
def charsLeading : List Char → List Char → Bool
  | [], _ => true
  | _ :: _, [] => false
  | a :: as, b :: bs => a == b && charsLeading as bs

/-- Containment test on character lists: does `p` occur contiguously in the
second list? -/
def charsHasRun (p : List Char) : List Char → Bool
  | [] => charsLeading p []
  | c :: cs => charsLeading p (c :: cs) || charsHasRun p cs

/-- Case-sensitive substring test on strings. -/
def strHasRun (hay needle : String) : Bool :=
  charsHasRun needle.data hay.data

/-- Case-insensitive substring test: the model of
`column.ilike(f"%query%")` (wildcard characters inside `query` itself are out
of scope of this model). -/
def strHasRunCI (hay needle : String) : Bool :=
  charsHasRun needle.toLower.data hay.toLower.data

/-- Embeds `search_students_in_class`: class filter plus case-insensitive
substring match on `first_name` OR `last_name`; note no `is_deleted`
filter, mirroring the source. -/
def search_students_in_class (db : DB) (class_id : Nat) (query : String)
    (skip limit : Nat) : List Student :=
  ((db.students.filter (fun s => s.class_id == class_id &&
      (strHasRunCI s.first_name query || strHasRunCI s.last_name query))).drop
    skip).take limit

/-- Embeds `update_student_last_interaction_timestamp`: sets the column to the
given timestamp, or to `utcnow()` (the explicit `now` argument) when the
Python argument is `None` (a `datetime` is never falsy, so the `if timestamp`
test in the source is exactly an `Option` match). -/
def update_student_last_interaction_timestamp (db : DB) (student_id : Nat)
    (timestamp : Option Nat) (now : Nat) : DB × Option Student :=
  match get_student db student_id with
  | none => (db, none)
  | some _ =>
    let db' := { db with
      students := updateFirst (fun s => s.id == student_id)
        (fun s => { s with
          last_interaction_update_timestamp := timestamp.getD now })
        db.students }
    (db', get_student db' student_id)

/-- Embeds `delete_student`: soft-delete, setting `is_deleted := true` and
`deleted_at := utcnow()` (the explicit `now`); absent student is a no-op. -/
def delete_student (db : DB) (student_id : Nat) (now : Nat) :
    DB × Option Student :=
  match get_student db student_id with
  | none => (db, none)
  | some _ =>
    let db' := { db with
      students := updateFirst (fun s => s.id == student_id)
        (fun s => { s with is_deleted := true, deleted_at := some now })
        db.students }
    (db', get_student db' student_id)

/-- The payload of `schemas.InteractionCreate`. -/
structure InteractionCreate where
  problem_db_id : Nat
  skill_db_id : Nat
  is_correct : Bool
  timestamp : Nat
deriving DecidableEq, Repr

/-- The payload of `schemas.InteractionCSVRow` (only the fields `crud.py`
reads). -/
structure InteractionCSVRow where
  problem_original_id : String
  skill_original_id : String
  is_correct : Bool
  timestamp : Nat
deriving DecidableEq, Repr

/-- Fresh primary key for an interaction row (the store's autoincrement). -/
def nextInteractionId (db : DB) : Nat :=
  db.interactions.foldr (fun i m => max i.id m) 0 + 1

/-- Embeds `create_interaction` (crud.py lines 255-274): `ValueError` when the
problem id does not resolve or the resolved problem's `skill_id` differs from
the supplied one; otherwise inserts the row and then calls
`update_student_last_interaction_timestamp` with the interaction's
timestamp. -/
def create_interaction (db : DB) (interaction : InteractionCreate)
    (student_id : Nat) (now : Nat) : DB × Except String Interaction :=
  match get_problem db interaction.problem_db_id with
  | none =>
    (db, .error ("Problem mit ID " ++ toString interaction.problem_db_id ++
      " nicht gefunden"))
  | some db_problem =>
    if db_problem.skill_id ≠ interaction.skill_db_id then
      (db, .error ("Problem " ++ toString interaction.problem_db_id ++
        " gehört nicht zu Skill " ++ toString interaction.skill_db_id))
    else
      let ni : Interaction :=
        { id := nextInteractionId db
          student_id := student_id
          problem_id := interaction.problem_db_id
          skill_id := interaction.skill_db_id
          is_correct := interaction.is_correct
          timestamp := interaction.timestamp }
      let db1 := { db with interactions := db.interactions ++ [ni] }
      let db2 := (update_student_last_interaction_timestamp db1 student_id
        (some interaction.timestamp) now).1
      (db2, .ok ni)

/-- Embeds `create_interaction_from_csv` (crud.py lines 276-299): resolves the
original ids; absent problem or skill gives `none`, and a `ValueError` from
the delegated `create_interaction` is caught and downgraded to `none`. -/
def create_interaction_from_csv (db : DB) (csv_row : InteractionCSVRow)
    (student_id : Nat) (now : Nat) : DB × Option Interaction :=
  match get_problem_by_original_id db csv_row.problem_original_id with
  | none => (db, none)
  | some db_problem =>
    match get_skill_by_original_id db csv_row.skill_original_id with
    | none => (db, none)
    | some db_skill =>
      let interaction_data : InteractionCreate :=
        { problem_db_id := db_problem.id
          skill_db_id := db_skill.id
          is_correct := csv_row.is_correct
          timestamp := csv_row.timestamp }
      match create_interaction db interaction_data student_id now with
      | (db', .ok i) => (db', some i)
      | (db', .error _) => (db', none)

/-- Python's `round(x, 2)` on an exact rational value: round half to even at
two decimal places. -/
def pyRound2 (q : ℚ) : ℚ :=
  let x := q * 100
  let f : ℤ := ⌊x⌋
  let r := x - f
  (if r < 1/2 then f
   else if 1/2 < r then f + 1
   else if f % 2 = 0 then f else f + 1 : ℤ) / 100

/-- The dictionary returned by `get_student_statistics` for an existing
student. -/
structure StudentStatistics where
  total_interactions : Nat
  correct_interactions : Nat
  incorrect_interactions : Nat
  accuracy : ℚ
  skills_practiced : Nat
  problems_attempted : Nat
  last_activity : Option Nat
  activity_status : String
deriving DecidableEq, Repr

/-- Embeds `get_student_statistics` (crud.py lines 301-341): `{}` for a
missing student becomes `none`; otherwise the COUNT / COUNT DISTINCT / MAX
aggregates over the student's interactions. -/
def get_student_statistics (db : DB) (student_id : Nat) :
    Option StudentStatistics :=
  match get_student db student_id with
  | none => none
  | some _ =>
    let rows := db.interactions.filter (fun i => i.student_id == student_id)
    let total := rows.length
    let correct := (rows.filter (fun i => i.is_correct)).length
    let skills_practiced := ((rows.map (fun i => i.skill_id)).dedup).length
    let last_activity := (rows.map (fun i => i.timestamp)).max?
    let problems_attempted := ((rows.map (fun i => i.problem_id)).dedup).length
    some
      { total_interactions := total
        correct_interactions := correct
        incorrect_interactions := total - correct
        accuracy :=
          pyRound2 (if total > 0 then (correct : ℚ) / (total : ℚ) * 100 else 0)
        skills_practiced := skills_practiced
        problems_attempted := problems_attempted
        last_activity := last_activity
        activity_status := if last_activity.isSome then "active"
          else "no_activity" }

/-- Ordering relation of `ORDER BY timestamp DESC` on interactions. -/
def interGe (a b : Interaction) : Prop := b.timestamp ≤ a.timestamp

/-- Ordering relation of `ORDER BY timestamp` (ascending) on interactions. -/
def interLe (a b : Interaction) : Prop := a.timestamp ≤ b.timestamp

instance : DecidableRel interGe := fun _ _ => Nat.decLe _ _

instance : DecidableRel interLe := fun _ _ => Nat.decLe _ _

instance : IsTotal Interaction interGe :=
  ⟨fun a b => le_total b.timestamp a.timestamp⟩

instance : IsTrans Interaction interGe :=
  ⟨fun _ _ _ h h' => le_trans h' h⟩

instance : IsTotal Interaction interLe :=
  ⟨fun a b => le_total a.timestamp b.timestamp⟩

instance : IsTrans Interaction interLe :=
  ⟨fun _ _ _ h h' => le_trans h h'⟩

/-- Embeds `get_student_interactions` (crud.py lines 219-253).  Note the
Python truthiness tests: `if skill_id:` and `if limit:` skip the filter /
limit when the supplied value is `0`, while a supplied `datetime` is never
falsy, so `start_date`/`end_date` are plain `Option` matches.  `ORDER BY
timestamp` is modelled as a stable sort on the timestamp (tie order is
unspecified in SQL). -/
def get_student_interactions (db : DB) (student_id : Nat) (limit : Option Nat)
    (sort_desc : Bool) (start_date end_date : Option Nat)
    (skill_id : Option Nat) : List Interaction :=
  let l0 := db.interactions.filter (fun i => i.student_id == student_id)
  let l1 : List Interaction := match start_date with
    | some d => l0.filter (fun i => d ≤ i.timestamp)
    | none => l0
  let l2 : List Interaction := match end_date with
    | some d => l1.filter (fun i => i.timestamp ≤ d)
    | none => l1
  let l3 : List Interaction := match skill_id with
    | some k => if k ≠ 0 then l2.filter (fun i => i.skill_id == k) else l2
    | none => l2
  let l4 := if sort_desc then l3.insertionSort interGe
    else l3.insertionSort interLe
  match limit with
  | some n => if n ≠ 0 then l4.take n else l4
  | none => l4

/-- Ordering relation of `ORDER BY created_at DESC` on classes. -/
def classGe (a b : ClassRow) : Prop := b.created_at ≤ a.created_at

instance : DecidableRel classGe := fun _ _ => Nat.decLe _ _

instance : IsTotal ClassRow classGe :=
  ⟨fun a b => le_total b.created_at a.created_at⟩

instance : IsTrans ClassRow classGe :=
  ⟨fun _ _ _ h h' => le_trans h' h⟩

/-- One dictionary of the list returned by `get_classes_for_dashboard`. -/
structure DashboardRow where
  id : Nat
  name : String
  student_count : Nat
deriving DecidableEq, Repr

/-- The annotation step of `get_classes_for_dashboard`: the outer join against
the grouped active-student subquery with `coalesce(count, 0)` yields, for each
class, its count of active students (0 when the class has no group row). -/
def annotateClass (db : DB) (c : ClassRow) : DashboardRow :=
  { id := c.id, name := c.name, student_count := activeStudentCount db c.id }

/-- Embeds `get_classes_for_dashboard` (crud.py lines 343-381): the teacher's
classes ordered by `created_at DESC`, limited, each annotated with its active
student count. -/
def get_classes_for_dashboard (db : DB) (teacher_id : Nat) (limit : Nat) :
    List DashboardRow :=
  (((db.classes.filter (fun c => c.teacher_id == teacher_id)).insertionSort
      classGe).take limit).map (annotateClass db)

/-! ### Concrete sample stores used by the witness and counterexample theorems -/

def exClass1 : ClassRow :=
  { id := 1, name := "7a", description := "Mathe", created_at := 100, teacher_id := 1 }

def exClass2 : ClassRow :=
  { id := 2, name := "7b", description := "Mathe", created_at := 200, teacher_id := 1 }

def exStudentActive : Student :=
  { id := 1, first_name := "Anna", last_name := "Muster", class_id := 1,
    is_deleted := false, deleted_at := none,
    last_interaction_update_timestamp := 10 }

def exStudentDeleted : Student :=
  { id := 2, first_name := "Ben", last_name := "Alt", class_id := 1,
    is_deleted := true, deleted_at := some 5,
    last_interaction_update_timestamp := 3 }

def exStudentNoActivity : Student :=
  { id := 2, first_name := "Cara", last_name := "Neu", class_id := 1,
    is_deleted := false, deleted_at := none,
    last_interaction_update_timestamp := 0 }

def exSkill1 : Skill :=
  { id := 1, internal_idx := 0, original_skill_id := "S1", name := "Fractions" }

def exSkill2 : Skill :=
  { id := 2, internal_idx := 1, original_skill_id := "S2", name := "Decimals" }

def exProblem1 : Problem :=
  { id := 1, internal_idx := 0, original_problem_id := "P1",
    description_placeholder := "", skill_id := 1, difficulty_mu_q := 0 }

def exDB1 : DB :=
  { classes := [exClass1], students := [exStudentActive], skills := [],
    problems := [], interactions := [] }

def exDB2 : DB :=
  { classes := [exClass1], students := [exStudentDeleted], skills := [],
    problems := [], interactions := [] }

def exDB3 : DB :=
  { classes := [], students := [exStudentActive], skills := [exSkill1],
    problems := [exProblem1], interactions := [] }

def exDB5 : DB :=
  { classes := [], students := [exStudentActive],
    skills := [exSkill1, exSkill2], problems := [exProblem1],
    interactions := [] }

def exInteractions10 : List Interaction :=
  [{ id := 1, student_id := 1, problem_id := 1, skill_id := 1, is_correct := true, timestamp := 1 },
   { id := 2, student_id := 1, problem_id := 1, skill_id := 1, is_correct := true, timestamp := 2 },
   { id := 3, student_id := 1, problem_id := 1, skill_id := 1, is_correct := true, timestamp := 3 },
   { id := 4, student_id := 1, problem_id := 1, skill_id := 1, is_correct := true, timestamp := 4 },
   { id := 5, student_id := 1, problem_id := 1, skill_id := 1, is_correct := true, timestamp := 5 },
   { id := 6, student_id := 1, problem_id := 1, skill_id := 1, is_correct := true, timestamp := 6 },
   { id := 7, student_id := 1, problem_id := 1, skill_id := 1, is_correct := true, timestamp := 7 },
   { id := 8, student_id := 1, problem_id := 1, skill_id := 1, is_correct := false, timestamp := 8 },
   { id := 9, student_id := 1, problem_id := 1, skill_id := 1, is_correct := false, timestamp := 9 },
   { id := 10, student_id := 1, problem_id := 1, skill_id := 1, is_correct := false, timestamp := 10 }]

def exDB6 : DB :=
  { classes := [], students := [exStudentActive, exStudentNoActivity],
    skills := [], problems := [], interactions := exInteractions10 }

def exDB7 : DB :=
  { classes := [exClass1], students := [exStudentActive, exStudentDeleted],
    skills := [], problems := [], interactions := [] }

def exInterC8 : Interaction :=
  { id := 1, student_id := 1, problem_id := 1, skill_id := 1,
    is_correct := true, timestamp := 5 }

def exDB8 : DB :=
  { classes := [], students := [], skills := [], problems := [],
    interactions := [exInterC8] }

def exDB9 : DB :=
  { classes := [exClass1, exClass2], students := [exStudentActive],
    skills := [], problems := [], interactions := [] }

/-! ### Helper lemmas -/

theorem string_data_append (a b : String) : (a ++ b).data = a.data ++ b.data := rfl

theorem charsLeading_self_append (p b : List Char) :
    charsLeading p (p ++ b) = true := by
  induction p with
  | nil => rfl
  | cons a as ih => simp [charsLeading, ih]

theorem charsHasRun_of_charsLeading {p l : List Char}
    (h : charsLeading p l = true) : charsHasRun p l = true := by
  cases l with
  | nil => simpa [charsHasRun] using h
  | cons c cs => simp [charsHasRun, h]

theorem charsHasRun_append (a p b : List Char) :
    charsHasRun p (a ++ (p ++ b)) = true := by
  induction a with
  | nil => simpa using charsHasRun_of_charsLeading (charsLeading_self_append p b)
  | cons x xs ih => simp [charsHasRun, ih]

theorem strHasRun_mid (s1 mid s2 : String) :
    strHasRun (s1 ++ mid ++ s2) mid = true := by
  unfold strHasRun
  have h : (s1 ++ mid ++ s2).data = s1.data ++ (mid.data ++ s2.data) := by
    rw [string_data_append, string_data_append, List.append_assoc]
  rw [h]
  exact charsHasRun_append _ _ _

theorem find?_updateFirst {p : α → Bool} {f : α → α} {l : List α} {x : α}
    (hfind : l.find? p = some x) (hpf : p (f x) = true) :
    (updateFirst p f l).find? p = some (f x) := by
  induction l with
  | nil => simp [List.find?] at hfind
  | cons a as ih =>
    by_cases hpa : p a = true
    · rw [List.find?_cons_of_pos _ hpa] at hfind
      obtain rfl : a = x := by injection hfind
      simp only [updateFirst, if_pos hpa]
      exact List.find?_cons_of_pos _ hpf
    · rw [List.find?_cons_of_neg _ hpa] at hfind
      simp only [updateFirst, if_neg hpa]
      rw [List.find?_cons_of_neg _ hpa]
      exact ih hfind

/-! ### Claim theorems -/

/-- Claim C1: for every class with at least one active (non-soft-deleted)
student, `delete_class` raises a domain validation error whose message
includes the count of active students, and the stored state (the class and
all its students — indeed the whole store) is unchanged by the call. -/
theorem claim_C1 (db : DB) (class_id : Nat) (c : ClassRow)
    (hc : get_class db class_id = some c)
    (hn : 0 < activeStudentCount db class_id) :
    (delete_class db class_id).1 = db ∧
    ∃ msg, (delete_class db class_id).2 = Except.error msg ∧
      strHasRun msg (toString (activeStudentCount db class_id)) = true := by
  have hred : delete_class db class_id =
      (db, Except.error ("Klasse kann nicht gelöscht werden. Bitte erst die " ++
        toString (activeStudentCount db class_id) ++ " Schüler löschen.")) := by
    unfold delete_class
    rw [hc]
    simp only [if_pos hn]
  rw [hred]
  exact ⟨rfl, _, rfl, strHasRun_mid _ _ _⟩

/-- Witness for C1 on a one-class, one-active-student store. -/
theorem claim_C1_witness :
    (delete_class exDB1 1).1 = exDB1 ∧
    ∃ msg, (delete_class exDB1 1).2 = Except.error msg ∧
      strHasRun msg (toString (activeStudentCount exDB1 1)) = true :=
  claim_C1 exDB1 1 exClass1 rfl (by decide)

/-- Claim C2: for a class with zero active students, `delete_class` returns
the class, removes its soft-deleted students and the class row, so that no
student of the class (active or soft-deleted) remains queryable through the
student listings; a missing class id returns `none` without an error. -/
theorem claim_C2 (db : DB) (class_id : Nat) (c : ClassRow)
    (hc : get_class db class_id = some c)
    (h0 : activeStudentCount db class_id = 0) :
    (delete_class db class_id).2 = Except.ok (some c) ∧
    get_class (delete_class db class_id).1 class_id = none ∧
    (delete_class db class_id).1.students.filter
      (fun s => s.class_id == class_id) = [] ∧
    (∀ skip limit,
      get_students_by_class (delete_class db class_id).1 class_id skip limit = []) ∧
    (∀ q skip limit,
      search_students_in_class (delete_class db class_id).1 class_id q skip limit = []) ∧
    (∀ db2, get_class db2 class_id = none →
      delete_class db2 class_id = (db2, Except.ok none)) := by
  have hn : ¬ activeStudentCount db class_id > 0 := by omega
  have hred : delete_class db class_id =
      ({ db with
          students := db.students.filter
            (fun s => !(s.class_id == class_id && s.is_deleted)),
          classes := db.classes.filter (fun k => !(k.id == class_id)) },
       Except.ok (some c)) := by
    unfold delete_class
    rw [hc]
    simp only [if_neg hn]
  have hact : ∀ s ∈ db.students, ¬(s.class_id == class_id && !s.is_deleted) = true := by
    unfold activeStudentCount at h0
    rw [List.length_eq_zero] at h0
    exact List.filter_eq_nil_iff.mp h0
  have hnostu : ∀ s ∈ (delete_class db class_id).1.students,
      ¬ s.class_id = class_id := by
    rw [hred]
    intro s hs heq
    simp only [List.mem_filter] at hs
    obtain ⟨hmem, hflag⟩ := hs
    have h1 := hact s hmem
    simp only [heq, beq_self_eq_true, Bool.true_and, Bool.not_eq_true,
      Bool.not_eq_true'] at h1 hflag
    exact h1 hflag
  refine ⟨by rw [hred], ?_, ?_, ?_, ?_, ?_⟩
  · rw [hred]
    unfold get_class
    rw [List.find?_eq_none]
    intro k hk
    simp only [List.mem_filter, Bool.not_eq_true'] at hk
    simp [hk.2]
  · rw [List.filter_eq_nil_iff]
    intro s hs
    simpa using hnostu s hs
  · intro skip limit
    unfold get_students_by_class
    have hfil : (delete_class db class_id).1.students.filter
        (fun s => s.class_id == class_id && !s.is_deleted) = [] := by
      rw [List.filter_eq_nil_iff]
      intro s hs
      simp [hnostu s hs]
    rw [hfil]
    simp
  · intro q skip limit
    unfold search_students_in_class
    have hfil : (delete_class db class_id).1.students.filter
        (fun s => s.class_id == class_id &&
          (strHasRunCI s.first_name q || strHasRunCI s.last_name q)) = [] := by
      rw [List.filter_eq_nil_iff]
      intro s hs
      simp [hnostu s hs]
    rw [hfil]
    simp
  · intro db2 h2
    unfold delete_class
    rw [h2]

/-- Witness for C2 on a store whose class 1 has one soft-deleted student and
no active student (and, for the absent branch, a store without class 1). -/
theorem claim_C2_witness :
    (delete_class exDB2 1).2 = Except.ok (some exClass1) ∧
    get_class (delete_class exDB2 1).1 1 = none ∧
    (delete_class exDB2 1).1.students.filter (fun s => s.class_id == 1) = [] ∧
    get_students_by_class (delete_class exDB2 1).1 1 0 10 = [] ∧
    search_students_in_class (delete_class exDB2 1).1 1 "a" 0 10 = [] ∧
    delete_class exDB8 1 = (exDB8, Except.ok none) := by
  have h := claim_C2 exDB2 1 exClass1 rfl (by decide)
  exact ⟨h.1, h.2.1, h.2.2.1, h.2.2.2.1 0 10, h.2.2.2.2.1 "a" 0 10,
    h.2.2.2.2.2 exDB8 rfl⟩

/-- Shared fact: whenever `create_interaction` raises, the store is
untouched (nothing was added to the session before the `raise`). -/
theorem create_interaction_error_state (db : DB) (ic : InteractionCreate)
    (sid now : Nat) (msg : String)
    (h : (create_interaction db ic sid now).2 = Except.error msg) :
    (create_interaction db ic sid now).1 = db := by
  unfold create_interaction at h ⊢
  cases hp : get_problem db ic.problem_db_id with
  | none => rfl
  | some p =>
    by_cases hsk : p.skill_id ≠ ic.skill_db_id
    · simp only [if_pos hsk]
    · rw [hp] at h
      simp only [if_neg hsk] at h
      exact absurd h (by simp)

/-- Claim C3: `create_interaction` raises the not-found error when the
problem id does not resolve, and the skill-mismatch validation error when the
resolved problem's `skill_id` differs from the supplied one; in both cases
the whole store — interactions and students included — is returned
unchanged. -/
theorem claim_C3 (db : DB) (ic : InteractionCreate) (sid now : Nat) :
    (get_problem db ic.problem_db_id = none →
      create_interaction db ic sid now =
        (db, Except.error ("Problem mit ID " ++ toString ic.problem_db_id ++
          " nicht gefunden"))) ∧
    (∀ p, get_problem db ic.problem_db_id = some p →
      p.skill_id ≠ ic.skill_db_id →
      create_interaction db ic sid now =
        (db, Except.error ("Problem " ++ toString ic.problem_db_id ++
          " gehört nicht zu Skill " ++ toString ic.skill_db_id))) := by
  constructor
  · intro h
    unfold create_interaction
    rw [h]
  · intro p hp hne
    unfold create_interaction
    rw [hp]
    simp only [if_pos hne]

/-- Witness for C3: an unknown problem id 99, and problem 1 (skill 1)
submitted with skill 2. -/
theorem claim_C3_witness :
    create_interaction exDB3 { problem_db_id := 99, skill_db_id := 1, is_correct := true, timestamp := 7 } 1 9 =
      (exDB3, Except.error ("Problem mit ID " ++ toString 99 ++ " nicht gefunden")) ∧
    create_interaction exDB3 { problem_db_id := 1, skill_db_id := 2, is_correct := true, timestamp := 7 } 1 9 =
      (exDB3, Except.error ("Problem " ++ toString 1 ++ " gehört nicht zu Skill " ++ toString 2)) :=
  ⟨(claim_C3 exDB3 _ 1 9).1 rfl,
   (claim_C3 exDB3 _ 1 9).2 exProblem1 rfl (by decide)⟩

/-- Shared fact: `update_student_last_interaction_timestamp` never touches the
interactions table. -/
theorem update_timestamp_interactions (db : DB) (sid : Nat) (ts : Option Nat)
    (now : Nat) :
    (update_student_last_interaction_timestamp db sid ts now).1.interactions =
      db.interactions := by
  unfold update_student_last_interaction_timestamp
  cases h : get_student db sid <;> rfl

/-- Shared fact: when the student exists, the explicit-timestamp update
rewrites exactly that student's `last_interaction_update_timestamp`. -/
theorem update_timestamp_found (db : DB) (sid ts now : Nat) (s : Student)
    (hs : get_student db sid = some s) :
    get_student (update_student_last_interaction_timestamp db sid (some ts) now).1 sid =
      some { s with last_interaction_update_timestamp := ts } := by
  have hs' : db.students.find? (fun t => t.id == sid) = some s := hs
  have hpf : (fun t : Student => t.id == sid)
      ((fun t : Student =>
        { t with last_interaction_update_timestamp := (some ts).getD now }) s) = true := by
    simpa using List.find?_some hs'
  unfold update_student_last_interaction_timestamp
  rw [hs]
  exact find?_updateFirst hs' hpf

/-- Claim C4: a successful `create_interaction` with timestamp `T` inserts a
row carrying exactly the supplied fields and leaves the parent student with
`last_interaction_update_timestamp = T` (the interaction's timestamp, not the
wall-clock `now` of the call). -/
theorem claim_C4 (db : DB) (ic : InteractionCreate) (sid now : Nat)
    (p : Problem) (s : Student)
    (hp : get_problem db ic.problem_db_id = some p)
    (hsk : p.skill_id = ic.skill_db_id)
    (hs : get_student db sid = some s) :
    ∃ i, (create_interaction db ic sid now).2 = Except.ok i ∧
      i.student_id = sid ∧ i.problem_id = ic.problem_db_id ∧
      i.skill_id = ic.skill_db_id ∧ i.is_correct = ic.is_correct ∧
      i.timestamp = ic.timestamp ∧
      i ∈ (create_interaction db ic sid now).1.interactions ∧
      ∃ s2, get_student (create_interaction db ic sid now).1 sid = some s2 ∧
        s2.last_interaction_update_timestamp = ic.timestamp := by
  have hne : ¬ p.skill_id ≠ ic.skill_db_id := by simp [hsk]
  have hred : create_interaction db ic sid now =
      ((update_student_last_interaction_timestamp
          { db with interactions := db.interactions ++
            [{ id := nextInteractionId db, student_id := sid,
               problem_id := ic.problem_db_id, skill_id := ic.skill_db_id,
               is_correct := ic.is_correct, timestamp := ic.timestamp }] }
          sid (some ic.timestamp) now).1,
        Except.ok
          { id := nextInteractionId db, student_id := sid,
            problem_id := ic.problem_db_id, skill_id := ic.skill_db_id,
            is_correct := ic.is_correct, timestamp := ic.timestamp }) := by
    unfold create_interaction
    rw [hp]
    simp only [if_neg hne]
  rw [hred]
  have hs1 : get_student
      { db with interactions := db.interactions ++
        [{ id := nextInteractionId db, student_id := sid,
           problem_id := ic.problem_db_id, skill_id := ic.skill_db_id,
           is_correct := ic.is_correct, timestamp := ic.timestamp }] }
      sid = some s := hs
  refine ⟨_, rfl, rfl, rfl, rfl, rfl, rfl, ?_, ?_⟩
  · rw [update_timestamp_interactions]
    simp
  · exact ⟨_, update_timestamp_found _ sid ic.timestamp now s hs1, rfl⟩

/-- Witness for C4: problem 1 (skill 1), student 1, timestamp 42, wall clock
9. -/
theorem claim_C4_witness :
    ∃ i, (create_interaction exDB3 { problem_db_id := 1, skill_db_id := 1, is_correct := true, timestamp := 42 } 1 9).2 = Except.ok i ∧
      i.student_id = 1 ∧ i.problem_id = 1 ∧ i.skill_id = 1 ∧
      i.is_correct = true ∧ i.timestamp = 42 ∧
      i ∈ (create_interaction exDB3 { problem_db_id := 1, skill_db_id := 1, is_correct := true, timestamp := 42 } 1 9).1.interactions ∧
      ∃ s2, get_student (create_interaction exDB3 { problem_db_id := 1, skill_db_id := 1, is_correct := true, timestamp := 42 } 1 9).1 1 = some s2 ∧
        s2.last_interaction_update_timestamp = 42 :=
  claim_C4 exDB3 _ 1 9 exProblem1 exStudentActive rfl rfl rfl

/-- Claim C5: `create_interaction_from_csv` returns `none` and leaves the
store unchanged when the problem original id does not resolve, when the skill
original id does not resolve, or when the delegated `create_interaction`
raises; none of these failures escapes as an error. -/
theorem claim_C5 (db : DB) (csv_row : InteractionCSVRow) (sid now : Nat) :
    (get_problem_by_original_id db csv_row.problem_original_id = none →
      create_interaction_from_csv db csv_row sid now = (db, none)) ∧
    (∀ p, get_problem_by_original_id db csv_row.problem_original_id = some p →
      get_skill_by_original_id db csv_row.skill_original_id = none →
      create_interaction_from_csv db csv_row sid now = (db, none)) ∧
    (∀ p sk msg,
      get_problem_by_original_id db csv_row.problem_original_id = some p →
      get_skill_by_original_id db csv_row.skill_original_id = some sk →
      (create_interaction db
        { problem_db_id := p.id, skill_db_id := sk.id,
          is_correct := csv_row.is_correct, timestamp := csv_row.timestamp }
        sid now).2 = Except.error msg →
      create_interaction_from_csv db csv_row sid now = (db, none)) := by
  refine ⟨?_, ?_, ?_⟩
  · intro h
    unfold create_interaction_from_csv
    rw [h]
  · intro p hp hsk
    unfold create_interaction_from_csv
    rw [hp, hsk]
  · intro p sk msg hp hsk herr
    have hstate := create_interaction_error_state db
      { problem_db_id := p.id, skill_db_id := sk.id,
        is_correct := csv_row.is_correct, timestamp := csv_row.timestamp }
      sid now msg herr
    have hpair : create_interaction db
        { problem_db_id := p.id, skill_db_id := sk.id,
          is_correct := csv_row.is_correct, timestamp := csv_row.timestamp }
        sid now = (db, Except.error msg) := by
      rw [Prod.ext_iff]
      exact ⟨hstate, herr⟩
    unfold create_interaction_from_csv
    rw [hp, hsk]
    simp only [hpair]

/-- Witness for C5: an unknown problem original id, an unknown skill original
id, and a resolving pair ("P1" of skill 1 with skill "S2" of id 2) whose
delegated call raises the mismatch error. -/
theorem claim_C5_witness :
    create_interaction_from_csv exDB5 { problem_original_id := "PX", skill_original_id := "S1", is_correct := true, timestamp := 7 } 1 9 = (exDB5, none) ∧
    create_interaction_from_csv exDB5 { problem_original_id := "P1", skill_original_id := "SX", is_correct := true, timestamp := 7 } 1 9 = (exDB5, none) ∧
    create_interaction_from_csv exDB5 { problem_original_id := "P1", skill_original_id := "S2", is_correct := true, timestamp := 7 } 1 9 = (exDB5, none) :=
  ⟨(claim_C5 exDB5 _ 1 9).1 rfl,
   (claim_C5 exDB5 _ 1 9).2.1 exProblem1 rfl rfl,
   (claim_C5 exDB5 _ 1 9).2.2 exProblem1 exSkill2 _ rfl rfl rfl⟩

/-- Shared fact: the `MAX(timestamp)` aggregate is `NULL` exactly when the
aggregated row set is empty. -/
theorem max?_map_eq_none {α : Type} (f : α → Nat) (l : List α) :
    (l.map f).max? = none ↔ l = [] := by
  cases l <;> simp [List.max?]

/-- Value of Python's `round(0, 2)`. -/
theorem pyRound2_zero : pyRound2 0 = 0 := by norm_num [pyRound2]

/-- Rounding commutes with the `total > 0` guard because `round(0, 2) = 0`. -/
theorem pyRound2_ite (c : Prop) [Decidable c] (x : ℚ) :
    pyRound2 (if c then x else 0) = (if c then pyRound2 x else 0) := by
  by_cases h : c
  · rw [if_pos h, if_pos h]
  · rw [if_neg h, if_neg h]
    exact pyRound2_zero

/-- The `activity_status` branch on `MAX(timestamp) IS NULL`, restated on
emptiness of the row set. -/
theorem status_of_max? (R : List Interaction) :
    (if ((R.map (fun i => i.timestamp)).max?).isSome then "active"
      else "no_activity") =
    (if R = [] then "no_activity" else "active") := by
  cases R with
  | nil => simp [List.max?]
  | cons a as => simp [List.max?]

/-- Claim C6: `get_student_statistics` is `none` for a missing student and
otherwise reports `incorrect = total − correct`,
`accuracy = round(correct/total·100, 2)` for `total > 0` and `0` for
`total = 0`, and `activity_status` `"active"` exactly when the student has
any interaction. -/
theorem claim_C6 (db : DB) (student_id : Nat) :
    (get_student db student_id = none →
      get_student_statistics db student_id = none) ∧
    (∀ s, get_student db student_id = some s →
      ∃ st, get_student_statistics db student_id = some st ∧
        st.total_interactions =
          (db.interactions.filter (fun i => i.student_id == student_id)).length ∧
        st.correct_interactions =
          ((db.interactions.filter (fun i => i.student_id == student_id)).filter
            (fun i => i.is_correct)).length ∧
        st.incorrect_interactions =
          st.total_interactions - st.correct_interactions ∧
        st.accuracy =
          (if 0 < (db.interactions.filter (fun i => i.student_id == student_id)).length
            then pyRound2
              ((((db.interactions.filter (fun i => i.student_id == student_id)).filter
                  (fun i => i.is_correct)).length : ℚ) /
                ((db.interactions.filter (fun i => i.student_id == student_id)).length : ℚ) * 100)
            else 0) ∧
        st.activity_status =
          (if db.interactions.filter (fun i => i.student_id == student_id) = []
            then "no_activity" else "active")) := by
  constructor
  · intro h
    unfold get_student_statistics
    rw [h]
  · intro s hs
    unfold get_student_statistics
    rw [hs]
    refine ⟨_, rfl, rfl, rfl, rfl, ?_, ?_⟩
    · exact pyRound2_ite _ _
    · exact status_of_max? _

/-- Witness for C6 on student 1 (10 interactions, 7 correct) and student 2
(no interactions): accuracy 70 with 3 incorrect, and accuracy 0 with
`"no_activity"`. -/
theorem claim_C6_witness :
    (∃ st, get_student_statistics exDB6 1 = some st ∧
      st.total_interactions =
        (exDB6.interactions.filter (fun i => i.student_id == 1)).length ∧
      st.correct_interactions =
        ((exDB6.interactions.filter (fun i => i.student_id == 1)).filter
          (fun i => i.is_correct)).length ∧
      st.incorrect_interactions =
        st.total_interactions - st.correct_interactions ∧
      st.accuracy =
        (if 0 < (exDB6.interactions.filter (fun i => i.student_id == 1)).length
          then pyRound2
            ((((exDB6.interactions.filter (fun i => i.student_id == 1)).filter
                (fun i => i.is_correct)).length : ℚ) /
              ((exDB6.interactions.filter (fun i => i.student_id == 1)).length : ℚ) * 100)
          else 0) ∧
      st.activity_status =
        (if exDB6.interactions.filter (fun i => i.student_id == 1) = []
          then "no_activity" else "active")) ∧
    (get_student_statistics exDB6 1).map (fun st => st.accuracy) = some 70 ∧
    (get_student_statistics exDB6 1).map (fun st => st.incorrect_interactions) = some 3 ∧
    (get_student_statistics exDB6 1).map (fun st => st.activity_status) = some "active" ∧
    (get_student_statistics exDB6 2).map (fun st => st.accuracy) = some 0 ∧
    (get_student_statistics exDB6 2).map (fun st => st.activity_status) = some "no_activity" := by
  have h1 : get_student_statistics exDB6 1 = some
      { total_interactions := 10, correct_interactions := 7,
        incorrect_interactions := 3,
        accuracy := pyRound2 (((7 : ℕ) : ℚ) / ((10 : ℕ) : ℚ) * 100),
        skills_practiced := 1, problems_attempted := 1,
        last_activity := some 10, activity_status := "active" } := rfl
  have h2 : get_student_statistics exDB6 2 = some
      { total_interactions := 0, correct_interactions := 0,
        incorrect_interactions := 0, accuracy := pyRound2 0,
        skills_practiced := 0, problems_attempted := 0,
        last_activity := none, activity_status := "no_activity" } := rfl
  refine ⟨(claim_C6 exDB6 1).2 exStudentActive rfl, ?_, ?_, ?_, ?_, ?_⟩
  · rw [h1]
    show some (pyRound2 (((7 : ℕ) : ℚ) / ((10 : ℕ) : ℚ) * 100)) = some 70
    norm_num [pyRound2]
  · rw [h1]
    rfl
  · rw [h1]
    rfl
  · rw [h2]
    show some (pyRound2 0) = some 0
    rw [pyRound2_zero]
  · rw [h2]
    rfl

/-- Claim C7: `get_students_by_class` returns only active (non-soft-deleted)
students of the class, while `search_students_in_class` (here with
`skip = 0` and a limit at least the table size, i.e. ignoring pagination)
returns exactly the students of the class whose first or last name contains
the query case-insensitively — with no soft-delete filter. -/
theorem claim_C7 (db : DB) (class_id : Nat) :
    (∀ skip limit s, s ∈ get_students_by_class db class_id skip limit →
      s.class_id = class_id ∧ s.is_deleted = false) ∧
    (∀ limit q, db.students.length ≤ limit →
      ∀ s, (s ∈ search_students_in_class db class_id q 0 limit ↔
        s ∈ db.students ∧ s.class_id = class_id ∧
        (strHasRunCI s.first_name q || strHasRunCI s.last_name q) = true)) := by
  constructor
  · intro skip limit s hmem
    unfold get_students_by_class at hmem
    have h1 : s ∈ db.students.filter
        (fun s => s.class_id == class_id && !s.is_deleted) :=
      List.drop_subset _ _ (List.take_subset _ _ hmem)
    simp only [List.mem_filter, Bool.and_eq_true, beq_iff_eq,
      Bool.not_eq_true'] at h1
    exact ⟨h1.2.1, h1.2.2⟩
  · intro limit q hlim s
    unfold search_students_in_class
    rw [List.drop_zero, List.take_of_length_le
      (le_trans (List.length_filter_le _ _) hlim)]
    simp [List.mem_filter, and_assoc]

/-- Witness for C7: the soft-deleted student "Ben Alt" of class 1 is found by
`search_students_in_class` with query "ben", while `get_students_by_class`
never returns a deleted student. -/
theorem claim_C7_witness :
    (exStudentActive.class_id = 1 ∧ exStudentActive.is_deleted = false) ∧
    (exStudentDeleted ∈ search_students_in_class exDB7 1 "ben" 0 2 ↔
      exStudentDeleted ∈ exDB7.students ∧ exStudentDeleted.class_id = 1 ∧
      (strHasRunCI exStudentDeleted.first_name "ben" ||
        strHasRunCI exStudentDeleted.last_name "ben") = true) :=
  ⟨(claim_C7 exDB7 1).1 0 10 exStudentActive (by decide),
   (claim_C7 exDB7 1).2 2 "ben" (by decide) exStudentDeleted⟩

/-- Counterexample to claim C8 as stated: with a supplied `skill_id = 0` the
Python truthiness test `if skill_id:` skips the skill filter entirely, so the
call returns an interaction whose `skill_id` (here `1`) differs from the
supplied value instead of the empty list of matches. -/
theorem claim_C8_cex :
    get_student_interactions exDB8 1 none true none none (some 0) =
      [exInterC8] ∧ exInterC8.skill_id ≠ 0 := by
  constructor
  · rfl
  · decide

/-- Claim C8 (amended): provided the supplied `skill_id` is not `0` (a `0` is
falsy in Python and disables the skill filter), `get_student_interactions`
without a limit returns exactly the student's interactions satisfying all
supplied filters conjunctively, ordered by timestamp descending when
`sort_desc` and ascending otherwise. -/
theorem claim_C8 (db : DB) (student_id : Nat) (sort_desc : Bool)
    (start_date end_date skill_id : Option Nat)
    (hk : skill_id ≠ some 0) :
    (∀ i, i ∈ get_student_interactions db student_id none sort_desc
        start_date end_date skill_id ↔
      (i ∈ db.interactions ∧ i.student_id = student_id ∧
        (∀ d, start_date = some d → d ≤ i.timestamp) ∧
        (∀ d, end_date = some d → i.timestamp ≤ d) ∧
        (∀ k, skill_id = some k → i.skill_id = k))) ∧
    List.Pairwise (fun a b => if sort_desc then b.timestamp ≤ a.timestamp
      else a.timestamp ≤ b.timestamp)
      (get_student_interactions db student_id none sort_desc
        start_date end_date skill_id) := by
  constructor
  · intro i
    unfold get_student_interactions
    rcases skill_id with _ | k
    · rcases start_date with _ | d1 <;> rcases end_date with _ | d2 <;>
        cases sort_desc <;>
        simp [List.mem_filter, and_assoc] <;> tauto
    · have hk0 : k ≠ 0 := fun h => hk (by rw [h])
      rcases start_date with _ | d1 <;> rcases end_date with _ | d2 <;>
        cases sort_desc <;>
        simp [hk0, List.mem_filter, and_assoc] <;> tauto
  · unfold get_student_interactions
    cases sort_desc
    · exact List.sorted_insertionSort interLe _
    · exact List.sorted_insertionSort interGe _

/-- Witness for C8 (amended) with a nonzero supplied skill filter. -/
theorem claim_C8_witness :
    List.Pairwise (fun a b => if true then b.timestamp ≤ a.timestamp
      else a.timestamp ≤ b.timestamp)
      (get_student_interactions exDB8 1 none true none none (some 1)) :=
  (claim_C8 exDB8 1 true none none (some 1) (by decide)).2

/-- Claim C9: `get_classes_for_dashboard` returns at most `limit` rows, all
arising from classes owned by the teacher listed newest-created first, each
annotated with its active (non-soft-deleted) student count; when every class
of the teacher fits within `limit`, each of them — a zero-student class
included, with count 0 — appears in the result. -/
theorem claim_C9 (db : DB) (teacher_id limit : Nat) :
    (get_classes_for_dashboard db teacher_id limit).length ≤ limit ∧
    (∃ cs : List ClassRow,
      (∀ c ∈ cs, c ∈ db.classes ∧ c.teacher_id = teacher_id) ∧
      List.Pairwise (fun a b => b.created_at ≤ a.created_at) cs ∧
      get_classes_for_dashboard db teacher_id limit =
        cs.map (annotateClass db)) ∧
    (∀ r ∈ get_classes_for_dashboard db teacher_id limit,
      r.student_count = activeStudentCount db r.id) ∧
    (∀ c ∈ db.classes, c.teacher_id = teacher_id →
      (db.classes.filter (fun k => k.teacher_id == teacher_id)).length ≤ limit →
      annotateClass db c ∈ get_classes_for_dashboard db teacher_id limit) ∧
    (∀ c ∈ db.classes, c.teacher_id = teacher_id →
      activeStudentCount db c.id = 0 →
      (db.classes.filter (fun k => k.teacher_id == teacher_id)).length ≤ limit →
      ({ id := c.id, name := c.name, student_count := 0 } : DashboardRow) ∈
        get_classes_for_dashboard db teacher_id limit) := by
  have hincl : ∀ c ∈ db.classes, c.teacher_id = teacher_id →
      (db.classes.filter (fun k => k.teacher_id == teacher_id)).length ≤ limit →
      annotateClass db c ∈ get_classes_for_dashboard db teacher_id limit := by
    intro c hc hct hlim
    unfold get_classes_for_dashboard
    have hlen : ((db.classes.filter
        (fun k => k.teacher_id == teacher_id)).insertionSort classGe).length ≤ limit := by
      rw [List.length_insertionSort]
      exact hlim
    rw [List.take_of_length_le hlen]
    refine List.mem_map_of_mem _ ?_
    rw [List.mem_insertionSort]
    rw [List.mem_filter]
    exact ⟨hc, by simp [hct]⟩
  refine ⟨?_, ?_, ?_, hincl, ?_⟩
  · unfold get_classes_for_dashboard
    rw [List.length_map, List.length_take]
    exact min_le_left _ _
  · refine ⟨((db.classes.filter (fun c => c.teacher_id == teacher_id)).insertionSort
      classGe).take limit, ?_, ?_, ?_⟩
    · intro c hc
      have h1 : c ∈ (db.classes.filter
          (fun c => c.teacher_id == teacher_id)).insertionSort classGe :=
        List.take_subset _ _ hc
      rw [List.mem_insertionSort, List.mem_filter] at h1
      exact ⟨h1.1, by simpa using h1.2⟩
    · refine List.Pairwise.sublist (List.take_sublist _ _) ?_
      exact List.sorted_insertionSort classGe _
    · rfl
  · intro r hr
    unfold get_classes_for_dashboard at hr
    rw [List.mem_map] at hr
    obtain ⟨c, _, rfl⟩ := hr
    rfl
  · intro c hc hct h0 hlim
    have := hincl c hc hct hlim
    have hann : annotateClass db c =
        ({ id := c.id, name := c.name, student_count := 0 } : DashboardRow) := by
      unfold annotateClass
      rw [h0]
    rw [hann] at this
    exact this

/-- Witness for C9: teacher 1 owns class 1 (one active student) and the
newer class 2 (no students); the zero-student class 2 appears with count
0. -/
theorem claim_C9_witness :
    (get_classes_for_dashboard exDB9 1 5).length ≤ 5 ∧
    annotateClass exDB9 exClass1 ∈ get_classes_for_dashboard exDB9 1 5 ∧
    ({ id := 2, name := "7b", student_count := 0 } : DashboardRow) ∈
      get_classes_for_dashboard exDB9 1 5 :=
  ⟨(claim_C9 exDB9 1 5).1,
   (claim_C9 exDB9 1 5).2.2.2.1 exClass1 (by decide) rfl (by decide),
   (claim_C9 exDB9 1 5).2.2.2.2 exClass2 (by decide) rfl (by decide) (by decide)⟩

/-- Shared fact: `delete_student` on an existing student returns the updated
row (flag set, `deleted_at` stamped with the call's wall clock) and stores
it. -/
theorem delete_student_found (db : DB) (sid now : Nat) (s : Student)
    (hs : get_student db sid = some s) :
    (delete_student db sid now).2 =
      some { s with is_deleted := true, deleted_at := some now } ∧
    get_student (delete_student db sid now).1 sid =
      some { s with is_deleted := true, deleted_at := some now } := by
  have hs' : db.students.find? (fun t => t.id == sid) = some s := hs
  have hpf : (fun t : Student => t.id == sid)
      ((fun t : Student =>
        { t with is_deleted := true, deleted_at := some now }) s) = true := by
    simpa using List.find?_some hs'
  have hfound := find?_updateFirst
    (f := fun t : Student => { t with is_deleted := true, deleted_at := some now })
    hs' hpf
  unfold delete_student
  rw [hs]
  exact ⟨hfound, hfound⟩

/-- Claim C10: `delete_student` on a missing id is a no-op returning `none`;
on an existing student (soft-deleted already or not) it leaves
`is_deleted = true` and stamps `deleted_at` with the current call's time, so
a second deletion overwrites `deleted_at` with the later time while the flag
stays `true`. -/
theorem claim_C10 (db : DB) (sid now now2 : Nat) :
    (get_student db sid = none → delete_student db sid now = (db, none)) ∧
    (∀ s, get_student db sid = some s →
      ∃ s1, (delete_student db sid now).2 = some s1 ∧
        get_student (delete_student db sid now).1 sid = some s1 ∧
        s1.is_deleted = true ∧ s1.deleted_at = some now ∧
        ∃ s2, (delete_student (delete_student db sid now).1 sid now2).2 = some s2 ∧
          s2.is_deleted = true ∧ s2.deleted_at = some now2) := by
  constructor
  · intro h
    unfold delete_student
    rw [h]
  · intro s hs
    obtain ⟨h1, h2⟩ := delete_student_found db sid now s hs
    refine ⟨_, h1, h2, rfl, rfl, ?_⟩
    obtain ⟨h3, _⟩ := delete_student_found (delete_student db sid now).1 sid now2 _ h2
    exact ⟨_, h3, rfl, rfl⟩

/-- Witness for C10: student 1 exists in `exDB1` (and id 99 does not); two
deletions at times 5 and 9. -/
theorem claim_C10_witness :
    delete_student exDB1 99 5 = (exDB1, none) ∧
    ∃ s1, (delete_student exDB1 1 5).2 = some s1 ∧
      get_student (delete_student exDB1 1 5).1 1 = some s1 ∧
      s1.is_deleted = true ∧ s1.deleted_at = some 5 ∧
      ∃ s2, (delete_student (delete_student exDB1 1 5).1 1 9).2 = some s2 ∧
        s2.is_deleted = true ∧ s2.deleted_at = some 9 :=
  ⟨(claim_C10 exDB1 99 5 9).1 rfl, (claim_C10 exDB1 1 5 9).2 exStudentActive rfl⟩
